import Mathlib

/-!
Verification of the xelis wallet front-end (src/xelis_wallet/src/config.rs and
src/xelis_wallet/src/main.rs) against its natural-language specification.

The two Rust source files are shallowly embedded below.  External collaborators
(the argon2 crate, the xelis_common address codec and argument values) and the
wallet modules that are not part of the two files (wallet.rs, cipher.rs) are
modelled explicitly; each such definition carries a doc comment saying where its
behaviour comes from.
-/

set_option autoImplicit false

namespace XelisWallet

/-! ## Constants from src/xelis_wallet/src/config.rs -/

/-- Source config.rs line 4: the base directory for wallet stores. -/
def DIR_PATH : String := "wallets/"

/-- Source config.rs line 5. -/
def PASSWORD_HASH_SIZE : Nat := 32

/-- Source config.rs line 6. -/
def SALT_SIZE : Nat := 32

/-- Source config.rs line 7. -/
def KEY_SIZE : Nat := 32

/-! ## Model of the argon2 crate surface used by config.rs

The argon2 crate is an external dependency.  `Params::new` validates its four
arguments against the crate's documented bounds and returns `Err` on a
violation; `Argon2::new` is an infallible record constructor.  The bounds below
are the crate's published minima/maxima (memory cost in KiB at least 8 blocks
and at least 8 per lane, at most 0x0FFFFFFF; time cost at least 1; lanes
between 1 and 0xFFFFFF; output length between 4 and 0xFFFFFFFF bytes). -/

/-- Argon2 algorithm identifier (argon2 crate `Algorithm`). -/
inductive Algorithm where
  | Argon2d
  | Argon2i
  | Argon2id
deriving DecidableEq

/-- Argon2 version identifier (argon2 crate `Version`). -/
inductive Version where
  | V0x10
  | V0x13
deriving DecidableEq

/-- Validated cost parameters (argon2 crate `Params`). -/
structure Params where
  mCost : Nat
  tCost : Nat
  pCost : Nat
  outputLen : Option Nat
deriving DecidableEq

/-- Errors `Params::new` can return (argon2 crate `Error`, the variants
relevant to parameter validation). -/
inductive Argon2Error where
  | MemoryTooLittle
  | MemoryTooMuch
  | TimeTooSmall
  | ThreadsTooFew
  | ThreadsTooMany
  | OutputTooShort
  | OutputTooLong
deriving DecidableEq

def MIN_M_COST : Nat := 8
def MAX_M_COST : Nat := 0x0FFFFFFF
def MIN_T_COST : Nat := 1
def MIN_P_COST : Nat := 1
def MAX_P_COST : Nat := 0xFFFFFF
def MIN_OUTPUT_LEN : Nat := 4
def MAX_OUTPUT_LEN : Nat := 0xFFFFFFFF

/-- Model of the argon2 crate constructor `Params::new(m_cost, t_cost, p_cost,
output_len)`: each argument is checked against the crate's bounds and the
first violation is reported as an error. -/
def Params.new (mCost tCost pCost : Nat) (outputLen : Option Nat) :
    Except Argon2Error Params :=
  if mCost < MIN_M_COST then .error .MemoryTooLittle
  else if mCost > MAX_M_COST then .error .MemoryTooMuch
  else if mCost < 8 * pCost then .error .MemoryTooLittle
  else if tCost < MIN_T_COST then .error .TimeTooSmall
  else if pCost < MIN_P_COST then .error .ThreadsTooFew
  else if pCost > MAX_P_COST then .error .ThreadsTooMany
  else
    match outputLen with
    | some len =>
      if len < MIN_OUTPUT_LEN then .error .OutputTooShort
      else if len > MAX_OUTPUT_LEN then .error .OutputTooLong
      else .ok ⟨mCost, tCost, pCost, some len⟩
    | none => .ok ⟨mCost, tCost, pCost, none⟩

/-- An Argon2 instance (argon2 crate `Argon2`): algorithm, version and
validated parameters.  `Argon2::new` is this record's constructor and cannot
fail. -/
structure Argon2 where
  algorithm : Algorithm
  version : Version
  params : Params
deriving DecidableEq

/-- Source config.rs lines 9-15, the body of the `lazy_static` block before the
`unwrap`: build the parameters (15 * 1000 KiB memory, 16 iterations,
parallelism 1, `PASSWORD_HASH_SIZE` output bytes) and on success wrap them in
an Argon2id v19 instance. -/
def buildPasswordAlgorithm : Except Argon2Error Argon2 :=
  (Params.new (15 * 1000) 16 1 (some PASSWORD_HASH_SIZE)).map
    (fun params => Argon2.mk Algorithm.Argon2id Version.V0x13 params)

/-- Source config.rs `PASSWORD_ALGORITHM`: the `unwrap` of
`buildPasswordAlgorithm`.  The error branch models the panic of `unwrap`; the
theorem for C3 proves it is never taken. -/
def PASSWORD_ALGORITHM : Argon2 :=
  match buildPasswordAlgorithm with
  | .ok a => a
  | .error _ => Argon2.mk Algorithm.Argon2id Version.V0x13 ⟨0, 0, 0, none⟩

/-! ## Model of key derivation (spec section 4.1)

Modelled from the spec: the key-derivation unit (`derive(password, salt)`,
implemented in the wallet's cipher/wallet modules, which are not under src/)
feeds the password and salt to the fixed `PASSWORD_ALGORITHM` instance and
returns the produced bytes.  The Argon2 compression itself is the external
argon2 crate; it is abstracted as a `core` function that maps an instance,
a password and a salt to an output whose length is the instance's configured
output length. -/

/-- An Argon2 core honours the configured output length: whenever the instance
fixes an output length, the produced byte string has exactly that length. -/
def CoreRespectsOutputLen (core : Argon2 → List Nat → List Nat → List Nat) : Prop :=
  ∀ inst p s n, inst.params.outputLen = some n → (core inst p s).length = n

/-- Modelled from the spec: `derive(password, salt)` runs the Argon2 core on
the given instance, password and salt; it depends on nothing else. -/
def derive (core : Argon2 → List Nat → List Nat → List Nat)
    (inst : Argon2) (password salt : List Nat) : List Nat :=
  core inst password salt

/-! ## Data model from xelis_common, used by src/xelis_wallet/src/main.rs

The xelis_common crate is part of the repository but not under src/; its types
are modelled from the spec.  A `Hash` is a fixed-size asset/content identifier,
a parsed `Address` is a public key together with an address type that may embed
an opaque data payload (spec section 6, address codec). -/

/-- Modelled from the spec: a fixed-size hash identifying an asset or a
transaction (glossary: Asset). -/
structure Hash where
  bytes : List Nat
deriving DecidableEq

/-- Modelled from the spec: a wallet public key (spec section 6 address codec
output); abstracted as an opaque identifier. -/
abbrev PublicKey := Nat

/-- Modelled from the spec: an opaque embedded payload carried by a data
address (spec section 3, `optional_extra_payload`). -/
abbrev DataElement := List Nat

/-- Modelled from the spec: xelis_common `AddressType` — a normal address or a
data address embedding a payload. -/
inductive AddressType where
  | Normal
  | Data (data : DataElement)
deriving DecidableEq

/-- Modelled from the spec: a parsed address, a public key plus its type
(spec section 6: `parse(text) -> (public_key, optional_embedded_payload)`). -/
structure Address where
  key : PublicKey
  addrType : AddressType
deriving DecidableEq

/-- Source main.rs line 129 collaborator: `Address::split` returns the public
key and the address type. -/
def Address.split (a : Address) : PublicKey × AddressType :=
  (a.key, a.addrType)

/-- Modelled from the spec: `XELIS_ASSET` is the network's native asset, a
fixed constant hash (the zero hash). -/
def XELIS_ASSET : Hash := ⟨List.replicate 32 0⟩

/-- Modelled from the spec: one transfer output inside a transaction
(spec section 3 `Transfer`): asset, destination public key, amount and
optional extra payload. -/
structure Transfer where
  asset : Hash
  dest : PublicKey
  extraData : Option DataElement
  amount : Nat
deriving DecidableEq

/-- Modelled from the spec: xelis_common `TransactionType` (spec section 3:
`variant: Transfer(list of Transfer), Burn, ...`). -/
inductive TransactionType where
  | Transfer (transfers : List XelisWallet.Transfer)
  | Burn (asset : Hash) (amount : Nat)
deriving DecidableEq

/-- Modelled from the spec: a built transaction — its type, its nonce and its
signature (spec section 3 `Transaction`; the hash is computed from it by the
external `Hashable` collaborator). -/
structure Transaction where
  txType : TransactionType
  nonce : Nat
  signature : Nat
deriving DecidableEq

/-- Errors surfaced by the command handlers in main.rs: an unparsable address
(line 119 `context("Invalid address")`), an unparsable asset hash (`to_hash`),
and the wallet errors of spec sections 4.5 and 7. -/
inductive CommandError where
  | InvalidAddress
  | InvalidHash
  | InvalidAmount
  | InsufficientBalance
  | SigningError
deriving DecidableEq

/-! ## Wallet state and operations (spec sections 3, 4.4, 4.5)

wallet.rs is part of the repository but not under src/; the wallet operations
called from main.rs are modelled from the spec. -/

/-- Modelled from the spec: the wallet's ledger state — per-asset balances,
the account nonce and the signing keypair (abstracted as an identifier). -/
structure Wallet where
  balances : List (Hash × Nat)
  nonce : Nat
  keypair : Nat
deriving DecidableEq

/-- Balance lookup in the per-asset ledger; an asset never touched has
balance 0 (spec section 3: keys present only for assets ever touched). -/
def lookupBalance : List (Hash × Nat) → Hash → Nat
  | [], _ => 0
  | (a, v) :: rest, h => if a = h then v else lookupBalance rest h

/-- Overwrite (or insert) one asset's balance in the ledger. -/
def setBalance : List (Hash × Nat) → Hash → Nat → List (Hash × Nat)
  | [], h, v => [(h, v)]
  | (a, x) :: rest, h, v =>
    if a = h then (h, v) :: rest else (a, x) :: setBalance rest h v

/-- Modelled from the spec: `balance(asset) -> amount`, the read-only snapshot
accessor of spec section 4.4 (main.rs line 161 `wallet.get_balance`). -/
def Wallet.get_balance (w : Wallet) (asset : Hash) : Nat :=
  lookupBalance w.balances asset

/-- Modelled from the spec: `reserve_spend` applied in order to every transfer
of a transaction (spec section 4.4/4.5): each reservation checks
`balance(asset) >= amount` and decrements the balance; if any check fails the
whole construction is abandoned (all-or-nothing). -/
def reserveSpends : Wallet → List Transfer → Option Wallet
  | w, [] => some w
  | w, t :: ts =>
    let bal := lookupBalance w.balances t.asset
    if t.amount ≤ bal then
      reserveSpends ⟨setBalance w.balances t.asset (bal - t.amount), w.nonce, w.keypair⟩ ts
    else none

/-- The transfers carried by a transaction type; the spec details reservation
only for the `Transfer` variant (spec section 4.5). -/
def TransactionType.transfers : TransactionType → List XelisWallet.Transfer
  | .Transfer ts => ts
  | .Burn _ _ => []

/-- Modelled from the spec: `create_transfer(asset, destination_key,
extra_payload, amount)` is pure data construction validating `amount > 0`
(spec section 4.5). -/
def Wallet.create_transfer (_w : Wallet) (asset : Hash) (key : PublicKey)
    (extraData : Option DataElement) (amount : Nat) : Except CommandError Transfer :=
  if amount > 0 then .ok ⟨asset, key, extraData, amount⟩
  else .error .InvalidAmount

/-- Modelled from the spec: `create_transaction(transaction_type)` reserves
every transfer amount all-or-nothing, assigns nonce `current_nonce + 1`, signs
the serialized body with the keypair (signing abstracted as the fallible
collaborator `sign`) and commits nonce and reservations (spec section 4.5).
The updated ledger state is returned alongside the transaction. -/
def Wallet.create_transaction (sign : Nat → TransactionType → Nat → Option Nat)
    (w : Wallet) (t : TransactionType) : Except CommandError (Transaction × Wallet) :=
  match reserveSpends w t.transfers with
  | none => .error .InsufficientBalance
  | some w₁ =>
    match sign w.keypair t (w.nonce + 1) with
    | none => .error .SigningError
    | some sig => .ok (⟨t, w.nonce + 1, sig⟩, ⟨w₁.balances, w.nonce + 1, w₁.keypair⟩)

/-! ## The command handlers of src/xelis_wallet/src/main.rs

The interactive prompt, argument parsing, address text decoding, transaction
hashing and signing are external collaborators; they enter the model as the
`Env` record of functions.  A handler's observable behaviour is its result
plus the ordered list of effects it performs. -/

/-- External collaborators used by the handlers: `Address::from_string`
(main.rs line 119), `ArgValue::to_hash` (lines 122 and 155), `Hashable::hash`
(line 137) and the signing primitive used by the spec-modelled
`create_transaction`. -/
structure Env where
  parseAddress : String → Option Address
  parseHash : String → Option Hash
  hashTx : Transaction → Hash
  sign : Nat → TransactionType → Nat → Option Nat

/-- Observable effects of a command handler: `manager.message` calls (the
transaction-hash and balance messages are kept structured, modelling
`format!` of the hash or balance into the message text), the transaction
returned by `create_transaction`, and a submission of a transaction to the
remote node (no handler in main.rs performs one — line 140 is
`// TODO send transaction`). -/
inductive Effect where
  | message (s : String)
  | messageTxHash (h : Hash)
  | messageBalance (asset : Hash) (amount : Nat)
  | builtTx (tx : Transaction)
  | submitTx (tx : Transaction)
deriving DecidableEq

/-- Arguments of the `transfer` command (main.rs line 82): required `address`
and `amount`, optional `asset`. -/
structure TransferArgs where
  address : String
  amount : Nat
  asset : Option String
deriving DecidableEq

/-- Arguments of the `balance` command (main.rs line 84): optional `asset`. -/
structure BalanceArgs where
  asset : Option String
deriving DecidableEq

deriving instance DecidableEq for Except

/-- A handler's outcome: its `Result`, its ordered effects, and the wallet
ledger state after the call. -/
structure CmdOutput where
  result : Except CommandError Unit
  effects : List Effect
  wallet : Wallet
deriving DecidableEq

/-- Source main.rs lines 121-125 and 154-158: resolve the optional `asset`
argument — parse the supplied hash when the argument is present, otherwise
default to `XELIS_ASSET`, the network's native asset. -/
def resolveAsset (parseHash : String → Option Hash) :
    Option String → Except CommandError Hash
  | some s =>
    match parseHash s with
    | some h => .ok h
    | none => .error .InvalidHash
  | none => .ok XELIS_ASSET

/-- Source main.rs lines 116-143, the `transfer` handler: parse the
destination address (reporting `Invalid address` on failure), resolve the
asset, print `Building transaction...`, split the address into public key and
address type, attach the embedded data as extra payload exactly for data
addresses, build the transfer and the transaction, and print the transaction
hash.  Line 140 is `// TODO send transaction`: no submit effect is ever
produced. -/
def transfer (env : Env) (w : Wallet) (args : TransferArgs) : CmdOutput :=
  match env.parseAddress args.address with
  | none => ⟨.error .InvalidAddress, [], w⟩
  | some address =>
    match resolveAsset env.parseHash args.asset with
    | .error e => ⟨.error e, [], w⟩
    | .ok asset =>
      let (key, addressType) := address.split
      let extraData : Option DataElement :=
        match addressType with
        | .Normal => none
        | .Data data => some data
      match w.create_transfer asset key extraData args.amount with
      | .error e => ⟨.error e, [.message "Building transaction..."], w⟩
      | .ok t =>
        match Wallet.create_transaction env.sign w (.Transfer [t]) with
        | .error e => ⟨.error e, [.message "Building transaction..."], w⟩
        | .ok (tx, w') =>
          ⟨.ok (), [.message "Building transaction...",
                    .builtTx tx, .messageTxHash (env.hashTx tx)], w'⟩

/-- Source main.rs lines 153-165, the `balance` handler: resolve the optional
asset argument (defaulting to `XELIS_ASSET`) and print the wallet's balance
for it. -/
def balance (env : Env) (w : Wallet) (args : BalanceArgs) : CmdOutput :=
  match resolveAsset env.parseHash args.asset with
  | .error e => ⟨.error e, [], w⟩
  | .ok asset => ⟨.ok (), [.messageBalance asset (w.get_balance asset)], w⟩

/-! ## The startup flow of src/xelis_wallet/src/main.rs `main` -/

/-- Source main.rs line 51: the wallet directory is `DIR_PATH` followed by the
configured wallet name. -/
def walletDir (name : String) : String := DIR_PATH ++ name

/-- Which wallet initialisation `main` performs. -/
inductive WalletInit where
  | openExisting (dir password : String)
  | createNew (dir password : String)
deriving DecidableEq

/-- Source main.rs lines 53-59: when a directory already exists at the derived
path the existing wallet is opened with the password, otherwise a new wallet
is created there. -/
def chooseWalletInit (dirExists : Bool) (dir password : String) : WalletInit :=
  if dirExists then .openExisting dir password else .createNew dir password

/-- The observable outcome of the online-mode section of `main` plus the final
prompt: whether the wallet ended up online, whether the sync loop was started,
which errors were logged, and whether the interactive prompt was reached. -/
structure StartupOutcome where
  online : Bool
  syncing : Bool
  loggedErrors : List String
  promptReached : Bool
deriving DecidableEq

/-- Source main.rs lines 61-76.  Modelled from the spec for the wallet calls
(wallet.rs is not under src/): `set_online_mode` performs the handshake and on
success the wallet is Online (spec section 4.6 / SyncState lifecycle), and
`start_syncing` starts the sync loop; the outcomes of these two fallible calls
are inputs.  On a `set_online_mode` error the error is logged and the wallet
stays offline; on a `start_syncing` error the error is logged after online
mode was already enabled.  In every case execution falls through to
`run_prompt`. -/
def startupOnlinePhase (offlineMode : Bool)
    (onlineRes syncRes : Except String Unit) : StartupOutcome :=
  if offlineMode then ⟨false, false, [], true⟩
  else
    match onlineRes with
    | .error e => ⟨false, false, ["Error while setting online mode: " ++ e], true⟩
    | .ok _ =>
      match syncRes with
      | .error e => ⟨true, false, ["Error while syncing: " ++ e], true⟩
      | .ok _ => ⟨true, true, [], true⟩

/-- The non-wallet inputs `main` branches on: whether the derived directory
exists, and the outcomes of `set_online_mode` and `start_syncing`. -/
structure MainInputs where
  dirExists : Bool
  onlineRes : Except String Unit
  syncRes : Except String Unit

/-- The startup-relevant CLI configuration (main.rs `Config`). -/
structure MainConfig where
  offlineMode : Bool
  name : String
  password : String

/-- Source main.rs lines 48-76, `main` up to the prompt: derive the wallet
directory, open or create the wallet there, then run the online-mode phase. -/
def mainStartup (cfg : MainConfig) (inp : MainInputs) :
    WalletInit × StartupOutcome :=
  (chooseWalletInit inp.dirExists (walletDir cfg.name) cfg.password,
   startupOnlinePhase cfg.offlineMode inp.onlineRes inp.syncRes)

/-! ## Concrete fixtures used to evaluate the handlers on explicit inputs -/

/-- A fixture environment whose address codec accepts every string as the
normal address of public key 3, whose signer returns `keypair + nonce`, and
whose transaction hasher returns the singleton of the nonce. -/
def envA : Env :=
  ⟨fun _ => some ⟨3, AddressType.Normal⟩, fun _ => none,
   fun tx => ⟨[tx.nonce]⟩, fun k _ n => some (k + n)⟩

/-- A fixture wallet holding 1000 units of the native asset at nonce 3. -/
def walletA : Wallet := ⟨[(XELIS_ASSET, 1000)], 3, 7⟩

/-- A fixture transfer command: some address text, amount 100, asset
omitted. -/
def argsA : TransferArgs := ⟨"xel1destination", 100, none⟩

/-- A fixture non-native asset hash. -/
def assetB : Hash := ⟨List.replicate 32 1⟩

/-- A fixture environment whose address codec accepts every string as a data
address of public key 5 embedding the payload `[9, 9]`, and whose hash parser
accepts every string as `assetB`. -/
def envB : Env :=
  ⟨fun _ => some ⟨5, AddressType.Data [9, 9]⟩, fun _ => some assetB,
   fun tx => ⟨[tx.nonce]⟩, fun k _ n => some (k + n)⟩

/-- A fixture wallet holding 500 units of `assetB` at nonce 0. -/
def walletB : Wallet := ⟨[(assetB, 500)], 0, 2⟩

/-- A fixture environment whose address codec rejects every string. -/
def envC : Env :=
  ⟨fun _ => none, fun _ => none, fun tx => ⟨[tx.nonce]⟩, fun k _ n => some (k + n)⟩

/-! ## Theorems for claims C1 and C3 -/

/-- C3: constructing the global Argon2 password algorithm from its fixed
constant parameters never fails: `Params::new (15*1000) 16 1 (some 32)`
returns `ok`, so the `unwrap` in config.rs never reaches its panic branch and
`PASSWORD_ALGORITHM` is exactly the Argon2id v19 instance with those
parameters. -/
theorem password_algorithm_build_never_fails :
    buildPasswordAlgorithm =
      Except.ok (Argon2.mk Algorithm.Argon2id Version.V0x13 ⟨15 * 1000, 16, 1, some 32⟩) ∧
    PASSWORD_ALGORITHM =
      Argon2.mk Algorithm.Argon2id Version.V0x13 ⟨15 * 1000, 16, 1, some 32⟩ := by
  constructor <;> rfl

/-- C1: the key-derivation unit uses Argon2id with memory cost 15*1000 KiB,
16 iterations, parallelism 1 and a 32-byte output; the salt and key sizes are
32 bytes (`SALT_SIZE = 32`, `PASSWORD_HASH_SIZE = KEY_SIZE = 32`); and every
derivation through the global instance with an output-length-honouring Argon2
core maps a password and a salt to a 32-byte key. -/
theorem password_algorithm_parameters :
    PASSWORD_ALGORITHM.algorithm = Algorithm.Argon2id ∧
    PASSWORD_ALGORITHM.params.mCost = 15 * 1000 ∧
    PASSWORD_ALGORITHM.params.tCost = 16 ∧
    PASSWORD_ALGORITHM.params.pCost = 1 ∧
    PASSWORD_ALGORITHM.params.outputLen = some PASSWORD_HASH_SIZE ∧
    SALT_SIZE = 32 ∧ PASSWORD_HASH_SIZE = 32 ∧ KEY_SIZE = 32 ∧
    (∀ core, CoreRespectsOutputLen core →
      ∀ password salt, (derive core PASSWORD_ALGORITHM password salt).length = 32) := by
  refine ⟨rfl, rfl, rfl, rfl, rfl, rfl, rfl, rfl, ?_⟩
  intro core hcore password salt
  exact hcore PASSWORD_ALGORITHM password salt 32 rfl

/-- Witness for C1: a concrete Argon2 core that honours the configured output
length, evaluated on a concrete password and salt, yields a 32-byte key. -/
theorem password_algorithm_parameters_witness :
    (derive (fun inst _ _ => List.replicate (inst.params.outputLen.getD 32) 0)
      PASSWORD_ALGORITHM [1, 2, 3] (List.replicate 32 7)).length = 32 :=
  (password_algorithm_parameters.2.2.2.2.2.2.2.2
    (fun inst _ _ => List.replicate (inst.params.outputLen.getD 32) 0)
    (by intro inst p s n h; simp [h])
    [1, 2, 3] (List.replicate 32 7))

/-- C8: key derivation is deterministic: with the fixed global
`PASSWORD_ALGORITHM` instance and any Argon2 core that honours the configured
output length, two derivations on equal passwords and equal salts produce the
same key, and that key is 32 bytes. -/
theorem derive_deterministic (core : Argon2 → List Nat → List Nat → List Nat)
    (hcore : CoreRespectsOutputLen core)
    (p₁ s₁ p₂ s₂ : List Nat) (hp : p₁ = p₂) (hs : s₁ = s₂) :
    derive core PASSWORD_ALGORITHM p₁ s₁ = derive core PASSWORD_ALGORITHM p₂ s₂ ∧
    (derive core PASSWORD_ALGORITHM p₁ s₁).length = KEY_SIZE := by
  subst hp; subst hs
  exact ⟨rfl, hcore PASSWORD_ALGORITHM p₁ s₁ 32 rfl⟩

/-- Witness for C8: determinism and the 32-byte output instantiated with a
concrete Argon2 core, password and salt. -/
theorem derive_deterministic_witness :
    derive (fun inst _ _ => List.replicate (inst.params.outputLen.getD 32) 1)
        PASSWORD_ALGORITHM [5] [9] =
      derive (fun inst _ _ => List.replicate (inst.params.outputLen.getD 32) 1)
        PASSWORD_ALGORITHM [5] [9] ∧
    (derive (fun inst _ _ => List.replicate (inst.params.outputLen.getD 32) 1)
        PASSWORD_ALGORITHM [5] [9]).length = KEY_SIZE :=
  derive_deterministic (fun inst _ _ => List.replicate (inst.params.outputLen.getD 32) 1)
    (by intro inst p s n h; simp [h]) [5] [9] [5] [9] rfl rfl

/-! ## Helper lemmas shared by the claim theorems -/

/-- String concatenation concatenates the underlying character lists. -/
theorem string_data_append (s t : String) : (s ++ t).data = s.data ++ t.data := by
  cases s; cases t; rfl

/-- Distinct wallet names derive distinct directories. -/
theorem walletDir_injective (n m : String) (h : walletDir n = walletDir m) : n = m := by
  unfold walletDir at h
  have hd : (DIR_PATH ++ n).data = (DIR_PATH ++ m).data := congrArg String.data h
  rw [string_data_append, string_data_append] at hd
  have hnm : n.data = m.data := List.append_cancel_left hd
  cases n; cases m; cases hnm; rfl

/-- A successfully built transaction carries exactly the requested transaction
type and the incremented nonce. -/
theorem create_transaction_ok_shape (sign : Nat → TransactionType → Nat → Option Nat)
    (w : Wallet) (ty : TransactionType) (tx : Transaction) (w₂ : Wallet)
    (h : Wallet.create_transaction sign w ty = .ok (tx, w₂)) :
    ∃ sig, tx = ⟨ty, w.nonce + 1, sig⟩ := by
  unfold Wallet.create_transaction at h
  rcases hr : reserveSpends w ty.transfers with _ | w₁ <;> rw [hr] at h
  · cases h
  · rcases hs : sign w.keypair ty (w.nonce + 1) with _ | sig <;> rw [hs] at h
    · cases h
    · simp only [Except.ok.injEq, Prod.mk.injEq] at h
      exact ⟨sig, h.1.symm⟩

/-- Characterization of every transaction the `transfer` handler builds: the
address text parsed to some address, the asset argument resolved, the amount
was positive, and the transaction is a single-output transfer to the parsed
public key carrying the address's embedded data as payload exactly for data
addresses. -/
theorem transfer_built_tx (env : Env) (w : Wallet) (args : TransferArgs)
    (tx : Transaction) (h : Effect.builtTx tx ∈ (transfer env w args).effects) :
    ∃ address asset sig,
      env.parseAddress args.address = some address ∧
      resolveAsset env.parseHash args.asset = Except.ok asset ∧
      0 < args.amount ∧
      tx = ⟨TransactionType.Transfer
              [⟨asset, address.key,
                (match address.addrType with
                 | AddressType.Normal => none
                 | AddressType.Data d => some d), args.amount⟩],
            w.nonce + 1, sig⟩ := by
  unfold transfer at h
  rcases ha : env.parseAddress args.address with _ | address <;> rw [ha] at h
  · simp at h
  · rcases hr : resolveAsset env.parseHash args.asset with e | asset <;> rw [hr] at h
    · simp at h
    · simp only [Address.split] at h
      rcases hc : Wallet.create_transfer w asset address.key
          (match address.addrType with
           | AddressType.Normal => none
           | AddressType.Data d => some d) args.amount with e | t <;> rw [hc] at h
      · simp at h
      · dsimp only at h
        rcases hx : Wallet.create_transaction env.sign w (TransactionType.Transfer [t])
            with e | p <;> rw [hx] at h
        · simp at h
        · obtain ⟨tx₂, w₂⟩ := p
          simp at h
          obtain ⟨sig, htx⟩ := create_transaction_ok_shape env.sign w _ tx₂ w₂ hx
          unfold Wallet.create_transfer at hc
          by_cases hamt : args.amount > 0
          · rw [if_pos hamt] at hc
            cases hc
            exact ⟨address, asset, sig, rfl, rfl, hamt, h.symm ▸ htx⟩
          · rw [if_neg hamt] at hc; cases hc

/-! ## Theorems for the remaining claims -/

/-- C2: on a valid address and amount the `transfer` command builds a signed
transaction and reports its hash, but performs no submission to the remote
node: the full effect trace at a concrete input that reaches the success path
contains the build and the hash message and nothing else — main.rs line 140 is
`// TODO send transaction`, so the claimed submit step does not exist. -/
theorem transfer_command_builds_without_submitting :
    transfer envA walletA argsA =
      ⟨Except.ok (),
       [Effect.message "Building transaction...",
        Effect.builtTx ⟨TransactionType.Transfer [⟨XELIS_ASSET, 3, none, 100⟩], 4, 11⟩,
        Effect.messageTxHash ⟨[4]⟩],
       ⟨[(XELIS_ASSET, 900)], 4, 7⟩⟩ := by rfl

/-- C4: at startup a new wallet is created at the derived directory exactly
when no directory already exists at that path, and the existing wallet is
opened with the given password exactly when it does, so creation never targets
an existing store. -/
theorem wallet_init_create_only_if_absent :
    ∀ (dirExists : Bool) (name password : String),
      (chooseWalletInit dirExists (walletDir name) password =
          WalletInit.createNew (walletDir name) password ↔ dirExists = false) ∧
      (chooseWalletInit dirExists (walletDir name) password =
          WalletInit.openExisting (walletDir name) password ↔ dirExists = true) := by
  intro dirExists name password
  cases dirExists <;> simp [chooseWalletInit]

/-- Witness for C4: both startup choices evaluated at a concrete name and
password. -/
theorem wallet_init_create_only_if_absent_witness :
    chooseWalletInit false (walletDir "w1") "pw" = WalletInit.createNew (walletDir "w1") "pw" ∧
    chooseWalletInit true (walletDir "w1") "pw" = WalletInit.openExisting (walletDir "w1") "pw" :=
  ⟨((wallet_init_create_only_if_absent false "w1" "pw").1).mpr rfl,
   ((wallet_init_create_only_if_absent true "w1" "pw").2).mpr rfl⟩

/-- Counterexample to C5: when the handshake succeeds and starting the sync
loop then fails, the error is logged and the prompt is reached, but the wallet
is online — not offline as the claim states for this failure. -/
theorem sync_start_failure_leaves_wallet_online :
    (mainStartup ⟨false, "w1", "pw"⟩ ⟨true, Except.ok (), Except.error "sync failed"⟩).2 =
      ⟨true, false, ["Error while syncing: sync failed"], true⟩ := by rfl

/-- C5 (amended): the interactive prompt is always reached, so online-mode
failures never abort startup; a handshake failure is logged and leaves the
wallet offline with no sync loop; a failure to start the sync loop after a
successful handshake is logged and leaves the wallet online with no sync
loop. -/
theorem online_mode_errors_nonfatal :
    (∀ (offlineMode : Bool) (onlineRes syncRes : Except String Unit),
        (startupOnlinePhase offlineMode onlineRes syncRes).promptReached = true) ∧
    (∀ (e : String) (r : Except String Unit),
        (startupOnlinePhase false (Except.error e) r).online = false ∧
        (startupOnlinePhase false (Except.error e) r).syncing = false ∧
        (startupOnlinePhase false (Except.error e) r).loggedErrors =
          ["Error while setting online mode: " ++ e] ∧
        (startupOnlinePhase false (Except.error e) r).promptReached = true ∧
        (startupOnlinePhase false (Except.ok ()) (Except.error e)).online = true ∧
        (startupOnlinePhase false (Except.ok ()) (Except.error e)).syncing = false ∧
        (startupOnlinePhase false (Except.ok ()) (Except.error e)).loggedErrors =
          ["Error while syncing: " ++ e] ∧
        (startupOnlinePhase false (Except.ok ()) (Except.error e)).promptReached = true) := by
  constructor
  · intro m o s
    cases m
    · cases o
      · rfl
      · cases s <;> rfl
    · rfl
  · intro e r
    exact ⟨rfl, rfl, rfl, rfl, rfl, rfl, rfl, rfl⟩

/-- C10: every transaction built through the `transfer` command is of the
`Transfer` variant containing exactly one transfer output. -/
theorem built_transaction_single_transfer (env : Env) (w : Wallet)
    (args : TransferArgs) (tx : Transaction)
    (h : Effect.builtTx tx ∈ (transfer env w args).effects) :
    ∃ t, tx.txType = TransactionType.Transfer [t] := by
  obtain ⟨address, asset, sig, _, _, _, htx⟩ := transfer_built_tx env w args tx h
  exact ⟨_, by rw [htx]⟩

/-- Witness for C10: the transaction built at a concrete input is a
single-output transfer. -/
theorem built_transaction_single_transfer_witness :
    ∃ t, (Transaction.mk (TransactionType.Transfer [⟨XELIS_ASSET, 3, none, 100⟩]) 4 11).txType
        = TransactionType.Transfer [t] :=
  built_transaction_single_transfer envA walletA argsA
    ⟨TransactionType.Transfer [⟨XELIS_ASSET, 3, none, 100⟩], 4, 11⟩ (by decide)

/-- C7: when the destination text fails to parse the `transfer` command
reports an invalid-address error and builds nothing; when it parses, every
built transaction sends to the parsed public key and carries an extra payload
exactly when the address is of the data type, the payload being the address's
embedded data. -/
theorem transfer_address_parse_handling (env : Env) (w : Wallet) (args : TransferArgs) :
    (env.parseAddress args.address = none →
       transfer env w args = ⟨Except.error CommandError.InvalidAddress, [], w⟩) ∧
    (∀ address tx, env.parseAddress args.address = some address →
       Effect.builtTx tx ∈ (transfer env w args).effects →
       ∃ asset sig,
         tx = ⟨TransactionType.Transfer
                 [⟨asset, address.key,
                   (match address.addrType with
                    | AddressType.Normal => none
                    | AddressType.Data d => some d), args.amount⟩],
               w.nonce + 1, sig⟩) := by
  constructor
  · intro hnone
    unfold transfer
    rw [hnone]
  · intro address tx hsome hmem
    obtain ⟨address₂, asset, sig, ha₂, _, _, htx⟩ := transfer_built_tx env w args tx hmem
    rw [hsome] at ha₂
    cases ha₂
    exact ⟨asset, sig, htx⟩

/-- Witness for C7: a rejecting codec yields the invalid-address outcome with
no effects, and at an accepting codec the built transaction goes to the parsed
key with no payload for a normal address. -/
theorem transfer_address_parse_handling_witness :
    transfer envC walletA argsA = ⟨Except.error CommandError.InvalidAddress, [], walletA⟩ ∧
    (∃ asset sig,
       Transaction.mk (TransactionType.Transfer [⟨XELIS_ASSET, 3, none, 100⟩]) 4 11 =
         ⟨TransactionType.Transfer [⟨asset, 3, none, 100⟩], 4, sig⟩) :=
  ⟨(transfer_address_parse_handling envC walletA argsA).1 rfl,
   (transfer_address_parse_handling envA walletA argsA).2 ⟨3, AddressType.Normal⟩
     ⟨TransactionType.Transfer [⟨XELIS_ASSET, 3, none, 100⟩], 4, 11⟩ rfl (by decide)⟩

/-- C6: in both the `transfer` and the `balance` command, an omitted asset
argument means the operation is applied to the native asset `XELIS_ASSET`,
and a supplied asset argument that parses to a hash means the operation is
applied to that hash. -/
theorem asset_argument_defaulting :
    (∀ (env : Env) (w : Wallet) (addrStr : String) (amount : Nat) (tx : Transaction),
       Effect.builtTx tx ∈ (transfer env w ⟨addrStr, amount, none⟩).effects →
       ∃ key payload sig,
         tx = ⟨TransactionType.Transfer [⟨XELIS_ASSET, key, payload, amount⟩],
               w.nonce + 1, sig⟩) ∧
    (∀ (env : Env) (w : Wallet) (addrStr : String) (amount : Nat) (s : String)
        (h : Hash) (tx : Transaction), env.parseHash s = some h →
       Effect.builtTx tx ∈ (transfer env w ⟨addrStr, amount, some s⟩).effects →
       ∃ key payload sig,
         tx = ⟨TransactionType.Transfer [⟨h, key, payload, amount⟩], w.nonce + 1, sig⟩) ∧
    (∀ (env : Env) (w : Wallet), balance env w ⟨none⟩ =
       ⟨Except.ok (), [Effect.messageBalance XELIS_ASSET (w.get_balance XELIS_ASSET)], w⟩) ∧
    (∀ (env : Env) (w : Wallet) (s : String) (h : Hash), env.parseHash s = some h →
       balance env w ⟨some s⟩ =
         ⟨Except.ok (), [Effect.messageBalance h (w.get_balance h)], w⟩) := by
  refine ⟨?_, ?_, ?_, ?_⟩
  · intro env w addrStr amount tx hmem
    obtain ⟨address, asset, sig, _, hres, _, htx⟩ :=
      transfer_built_tx env w ⟨addrStr, amount, none⟩ tx hmem
    simp only [resolveAsset, Except.ok.injEq] at hres
    subst hres
    exact ⟨address.key,
           (match address.addrType with
            | AddressType.Normal => none
            | AddressType.Data d => some d), sig, htx⟩
  · intro env w addrStr amount s h tx hps hmem
    obtain ⟨address, asset, sig, _, hres, _, htx⟩ :=
      transfer_built_tx env w ⟨addrStr, amount, some s⟩ tx hmem
    simp only [resolveAsset, hps, Except.ok.injEq] at hres
    subst hres
    exact ⟨address.key,
           (match address.addrType with
            | AddressType.Normal => none
            | AddressType.Data d => some d), sig, htx⟩
  · intro env w
    rfl
  · intro env w s h hps
    simp [balance, resolveAsset, hps]

/-- Witness for C6: concrete transfers built with the asset argument omitted
(native asset) and supplied (the parsed hash), and a concrete balance query
with the asset argument supplied. -/
theorem asset_argument_defaulting_witness :
    (∃ key payload sig,
       Transaction.mk (TransactionType.Transfer [⟨XELIS_ASSET, 3, none, 100⟩]) 4 11 =
         ⟨TransactionType.Transfer [⟨XELIS_ASSET, key, payload, 100⟩], walletA.nonce + 1, sig⟩) ∧
    (∃ key payload sig,
       Transaction.mk (TransactionType.Transfer [⟨assetB, 5, some [9, 9], 50⟩]) 1 3 =
         ⟨TransactionType.Transfer [⟨assetB, key, payload, 50⟩], walletB.nonce + 1, sig⟩) ∧
    balance envB walletB ⟨some "asset-hex"⟩ =
      ⟨Except.ok (), [Effect.messageBalance assetB (walletB.get_balance assetB)], walletB⟩ :=
  ⟨asset_argument_defaulting.1 envA walletA "xel1destination" 100
     ⟨TransactionType.Transfer [⟨XELIS_ASSET, 3, none, 100⟩], 4, 11⟩ (by decide),
   asset_argument_defaulting.2.1 envB walletB "a" 50 "x" assetB
     ⟨TransactionType.Transfer [⟨assetB, 5, some [9, 9], 50⟩], 1, 3⟩ rfl (by decide),
   asset_argument_defaulting.2.2.2 envB walletB "asset-hex" assetB rfl⟩

/-- C9: the wallet's on-disk location is the concatenation of the constant
`DIR_PATH` (the string of the directory prefix) with the wallet's name, and
distinct names yield distinct directories. -/
theorem wallet_dir_path :
    (∀ n, walletDir n = "wallets/" ++ n) ∧
    (∀ n m, n ≠ m → walletDir n ≠ walletDir m) :=
  ⟨fun _ => rfl, fun n m hne heq => hne (walletDir_injective n m heq)⟩

/-- Witness for C9: two concrete distinct wallet names map to their prefixed
paths and those paths differ. -/
theorem wallet_dir_path_witness :
    walletDir "alice" = "wallets/" ++ "alice" ∧ walletDir "alice" ≠ walletDir "bob" :=
  ⟨wallet_dir_path.1 "alice", wallet_dir_path.2 "alice" "bob" (by decide)⟩

end XelisWallet
